import Mathlib

/-
  Shallow embedding of the Bittensor TextSeq2Seq synapse codec and validation
  layer (src/bittensor/_synapse/text_seq2seq_impl.py).

  Tensors are modelled as shape + dtype + flat data.  `torch.Tensor.size(i)`
  raises IndexError when `i` is out of range, so it is embedded as an
  Option-valued lookup; functions of the source that call it propagate the
  failure.  The `check_*` validators raise ValueError (the spec's ShapeError)
  on a shape violation; they are embedded as Except-valued functions, where
  `CheckError.indexError` marks an IndexError escaping from a `size()` call.

  Parts of the repository that the source file uses but that are not part of
  the provided sources (the parent `Synapse` constructor that stores the four
  serializer types, the protobuf instance schema with its SerializeToString /
  ParseFromString pair, and the global `bittensor.__vocab_size__`) are
  modelled from the spec; each such definition says so in its doc comment.
-/

namespace Bittensor

/-- Torch dtypes relevant to this layer (`torch.float32` is the canonical
float dtype produced by the nil fallbacks; requests typically carry
`torch.long` token ids). -/
inductive DType where
  | float32
  | float64
  | int64
  deriving DecidableEq

/-- A torch tensor: an ordered shape, a dtype and flat numeric contents.
Beyond shape and dtype the contents are opaque to the codec layer. -/
structure Tensor where
  shape : List Nat
  dtype : DType
  data : List Int
  deriving DecidableEq

/-- `torch.Tensor.size(i)`: the size of dimension `i`, or `none` when `i` is
out of range (torch raises IndexError there). -/
def Tensor.size (t : Tensor) (i : Nat) : Option Nat :=
  t.shape.get? i

/-- `torch.zeros(shape, dtype)`: an all-zero tensor of the given shape. -/
def torch_zeros (shape : List Nat) (dtype : DType) : Tensor :=
  { shape := shape, dtype := dtype, data := List.replicate shape.prod 0 }

/-- Modelled from the spec: `bittensor.proto.Serializer.MSGPACK`, the default
serializer format identifier; proto enums are integers on the wire. -/
def MSGPACK : Nat := 0

/-- Modelled from the spec: the `TEXT_SEQ_2_SEQ` member of the
`bittensor.proto.Synapse.SynapseType` enum (the variant-type tag). -/
def TEXT_SEQ_2_SEQ : Nat := 2

/-- The TextSeq2Seq synapse variant.  Its six attributes: `topk`,
`num_to_generate` and the four per-direction serializer formats.  The storage
of the four serializer types is performed by the parent `Synapse` constructor,
which is not among the provided sources; it is modelled from the spec
(instance schema of §6). -/
structure TextSeq2Seq where
  topk : Nat
  num_to_generate : Nat
  forward_request_serializer_type : Nat
  forward_response_serializer_type : Nat
  backward_request_serializer_type : Nat
  backward_response_serializer_type : Nat
  deriving DecidableEq

/-- `TextSeq2Seq.__init__`: stores `topk` and `num_to_generate` itself and
hands the four serializer types to the parent constructor, which stores them
unchanged. -/
def TextSeq2Seq.init (topk num_to_generate fwd_req fwd_resp bwd_req bwd_resp : Nat) :
    TextSeq2Seq :=
  { topk := topk
    num_to_generate := num_to_generate
    forward_request_serializer_type := fwd_req
    forward_response_serializer_type := fwd_resp
    backward_request_serializer_type := bwd_req
    backward_response_serializer_type := bwd_resp }

/-- Failure modes of the validators: `shapeError` is the ValueError the
`check_*` methods raise deliberately (the spec's ShapeError); `indexError` is
an IndexError escaping from an out-of-range `size()` call. -/
inductive CheckError where
  | shapeError
  | indexError
  deriving DecidableEq

/-- `check_forward_request_tensor`: raises ValueError unless the request has
rank 2.  (`self` is only used to format the error message.) -/
def check_forward_request_tensor (_s : TextSeq2Seq) (forward_request_tensor : Tensor) :
    Except CheckError Unit :=
  if forward_request_tensor.shape.length ≠ 2 then .error .shapeError else .ok ()

/-- `check_forward_response_tensor`: raises ValueError when the response is
not rank 2, or its dimension 0 differs from the request's dimension 0, or its
dimension 1 exceeds `num_to_generate`.  Python's `or` short-circuits, so
`forward_request_tensor.size(0)` is only evaluated once the response is known
to be rank 2; on a rank-0 request that call raises IndexError. -/
def check_forward_response_tensor (s : TextSeq2Seq)
    (forward_request_tensor forward_response_tensor : Tensor) :
    Except CheckError Unit :=
  if forward_response_tensor.shape.length ≠ 2 then .error .shapeError
  else
    match forward_request_tensor.shape.get? 0 with
    | none => .error .indexError
    | some q0 =>
      if forward_response_tensor.shape.getD 0 0 ≠ q0 ∨
          forward_response_tensor.shape.getD 1 0 > s.num_to_generate
      then .error .shapeError
      else .ok ()

/-- `check_backward_request_gradient`: raises ValueError unless the gradient's
shape list equals the request's shape list. -/
def check_backward_request_gradient (_s : TextSeq2Seq)
    (forward_request_tensor backward_request_gradient : Tensor) :
    Except CheckError Unit :=
  if backward_request_gradient.shape ≠ forward_request_tensor.shape then .error .shapeError
  else .ok ()

/-- `encode_forward_request_tensor`: identity in this variant. -/
def encode_forward_request_tensor (_s : TextSeq2Seq) (forward_request_tensor : Tensor) :
    Tensor :=
  forward_request_tensor

/-- `decode_forward_request_tensor`: identity in this variant. -/
def decode_forward_request_tensor (_s : TextSeq2Seq) (forward_request_tensor : Tensor) :
    Tensor :=
  forward_request_tensor

/-- `encode_forward_response_tensor`: identity (top-k logit encoding is a
declared but unimplemented extension point). -/
def encode_forward_response_tensor (_s : TextSeq2Seq) (forward_response_tensor : Tensor) :
    Tensor :=
  forward_response_tensor

/-- `decode_forward_response_tensor`: identity in this variant. -/
def decode_forward_response_tensor (_s : TextSeq2Seq) (forward_response_tensor : Tensor) :
    Tensor :=
  forward_response_tensor

/-- `encode_backward_request_gradient`: identity in this variant. -/
def encode_backward_request_gradient (_s : TextSeq2Seq) (backward_request_gradient : Tensor) :
    Tensor :=
  backward_request_gradient

/-- `decode_backward_request_gradient`: identity in this variant. -/
def decode_backward_request_gradient (_s : TextSeq2Seq) (backward_request_gradient : Tensor) :
    Tensor :=
  backward_request_gradient

/-- Modelled from the spec: the global `bittensor.__vocab_size__` constant
(defined in the package root, not among the provided sources); the spec's
§8 instantiates it as `VOCAB_SIZE = 50000`. -/
def vocab_size : Nat := 50000

/-- `nill_forward_response_tensor`: the zeroed fallback response,
`torch.zeros((req.size(0), req.size(1), vocab_size), dtype=float32)`.
The two `size` calls are evaluated left to right and may raise IndexError on
a low-rank request. -/
def nill_forward_response_tensor (_s : TextSeq2Seq) (forward_request_tensor : Tensor) :
    Option Tensor := do
  let d0 ← forward_request_tensor.size 0
  let d1 ← forward_request_tensor.size 1
  pure (torch_zeros [d0, d1, vocab_size] .float32)

/-- `nill_backward_response_gradient`: the zeroed fallback gradient,
`torch.zeros((req.size(0), req.size(1), req.size(2)), dtype=float32)` — note
the source reads dimension 2 of the forward request tensor. -/
def nill_backward_response_gradient (_s : TextSeq2Seq) (forward_request_tensor : Tensor) :
    Option Tensor := do
  let d0 ← forward_request_tensor.size 0
  let d1 ← forward_request_tensor.size 1
  let d2 ← forward_request_tensor.size 2
  pure (torch_zeros [d0, d1, d2] .float32)

/-- The `bittensor.proto.Synapse.TextSeq2Seq` instance proto: the six-field
instance schema of spec §6. -/
structure InstanceProto where
  topk : Nat
  num_to_generate : Nat
  forward_request_serializer_type : Nat
  forward_response_serializer_type : Nat
  backward_request_serializer_type : Nat
  backward_response_serializer_type : Nat
  deriving DecidableEq

/-- The `bittensor.proto.Synapse` wire envelope: tag, opaque payload bytes,
return code and message. -/
structure WireProto where
  synapse_data : List Nat
  synapse_type : Nat
  return_code : Nat
  message : String
  deriving DecidableEq

/-- Base-10 digit expansion, little-endian, with an explicit structural fuel
so that the kernel can evaluate it (fuel `n` always suffices for `n`). -/
def digitsAux : Nat → Nat → List Nat
  | _, 0 => []
  | 0, _ + 1 => []
  | fuel + 1, n + 1 => ((n + 1) % 10) :: digitsAux fuel ((n + 1) / 10)

/-- Little-endian base-10 digits of `n`. -/
def toBase10 (n : Nat) : List Nat :=
  digitsAux n n

/-- Value of a little-endian base-10 digit list. -/
def ofBase10 : List Nat → Nat
  | [] => 0
  | d :: ds => d + 10 * ofBase10 ds

/-- One encoded field: its digits (each `< 10`) followed by the field
separator byte `10`. -/
def encField (n : Nat) : List Nat :=
  toBase10 n ++ [10]

/-- Modelled from the spec: the protobuf `SerializeToString` of the six-field
instance schema.  Google protobuf is not among the provided sources; it is
modelled as a concrete injective byte encoding of the six integer fields,
satisfying the wire round-trip contract of spec §3. -/
def InstanceProto.SerializeToString (p : InstanceProto) : List Nat :=
  encField p.topk ++
    (encField p.num_to_generate ++
      (encField p.forward_request_serializer_type ++
        (encField p.forward_response_serializer_type ++
          (encField p.backward_request_serializer_type ++
            encField p.backward_response_serializer_type))))

/-- Split a byte list on the separator byte `10`. -/
def splitSep : List Nat → List (List Nat)
  | [] => [[]]
  | b :: rest =>
    if b = 10 then [] :: splitSep rest
    else
      match splitSep rest with
      | [] => [[b]]
      | c :: cs => (b :: c) :: cs

/-- Modelled from the spec: the protobuf `ParseFromString` for the six-field
instance schema; fails (protobuf DecodeError, the spec's SchemaError) when
the payload does not carry exactly six fields. -/
def ParseFromString (bytes : List Nat) : Option InstanceProto :=
  match splitSep bytes with
  | [f1, f2, f3, f4, f5, f6, []] =>
    some
      { topk := ofBase10 f1
        num_to_generate := ofBase10 f2
        forward_request_serializer_type := ofBase10 f3
        forward_response_serializer_type := ofBase10 f4
        backward_request_serializer_type := ofBase10 f5
        backward_response_serializer_type := ofBase10 f6 }
  | _ => none

/-- `serialize_to_instance_proto`: copies the six attributes into an instance
proto. -/
def serialize_to_instance_proto (s : TextSeq2Seq) : InstanceProto :=
  { topk := s.topk
    num_to_generate := s.num_to_generate
    forward_request_serializer_type := s.forward_request_serializer_type
    forward_response_serializer_type := s.forward_response_serializer_type
    backward_request_serializer_type := s.backward_request_serializer_type
    backward_response_serializer_type := s.backward_response_serializer_type }

/-- `deserialize_from_instance_proto`: rebuilds an instance from the six
fields of an instance proto. -/
def deserialize_from_instance_proto (p : InstanceProto) : TextSeq2Seq :=
  TextSeq2Seq.init p.topk p.num_to_generate
    p.forward_request_serializer_type p.forward_response_serializer_type
    p.backward_request_serializer_type p.backward_response_serializer_type

/-- `serialize_to_wire_proto`: packs the instance into the wire envelope with
this variant's tag and the given return code and message. -/
def serialize_to_wire_proto (s : TextSeq2Seq) (code : Nat) (message : String) : WireProto :=
  { synapse_data := (serialize_to_instance_proto s).SerializeToString
    synapse_type := TEXT_SEQ_2_SEQ
    return_code := code
    message := message }

/-- `deserialize_from_wire_proto`: parses the payload bytes against the
instance schema and rebuilds the instance; only `synapse_data` is read. -/
def deserialize_from_wire_proto (w : WireProto) : Option TextSeq2Seq :=
  (ParseFromString w.synapse_data).map deserialize_from_instance_proto

/-
  State-passing embeddings of the instance methods, for the frame property:
  a Python method body could assign to `self`, so each method is embedded as
  `TextSeq2Seq → args → TextSeq2Seq × result`; since no method body of the
  source assigns any attribute, each returns its state component unchanged.
-/

/-- Stateful form of `check_forward_request_tensor`. -/
def check_forward_request_tensorM (s : TextSeq2Seq) (t : Tensor) :
    TextSeq2Seq × Except CheckError Unit :=
  (s, check_forward_request_tensor s t)

/-- Stateful form of `check_forward_response_tensor`. -/
def check_forward_response_tensorM (s : TextSeq2Seq) (req resp : Tensor) :
    TextSeq2Seq × Except CheckError Unit :=
  (s, check_forward_response_tensor s req resp)

/-- Stateful form of `check_backward_request_gradient`. -/
def check_backward_request_gradientM (s : TextSeq2Seq) (req grad : Tensor) :
    TextSeq2Seq × Except CheckError Unit :=
  (s, check_backward_request_gradient s req grad)

/-- Stateful form of `encode_forward_request_tensor`. -/
def encode_forward_request_tensorM (s : TextSeq2Seq) (t : Tensor) : TextSeq2Seq × Tensor :=
  (s, encode_forward_request_tensor s t)

/-- Stateful form of `decode_forward_request_tensor`. -/
def decode_forward_request_tensorM (s : TextSeq2Seq) (t : Tensor) : TextSeq2Seq × Tensor :=
  (s, decode_forward_request_tensor s t)

/-- Stateful form of `encode_forward_response_tensor`. -/
def encode_forward_response_tensorM (s : TextSeq2Seq) (t : Tensor) : TextSeq2Seq × Tensor :=
  (s, encode_forward_response_tensor s t)

/-- Stateful form of `decode_forward_response_tensor`. -/
def decode_forward_response_tensorM (s : TextSeq2Seq) (t : Tensor) : TextSeq2Seq × Tensor :=
  (s, decode_forward_response_tensor s t)

/-- Stateful form of `encode_backward_request_gradient`. -/
def encode_backward_request_gradientM (s : TextSeq2Seq) (t : Tensor) : TextSeq2Seq × Tensor :=
  (s, encode_backward_request_gradient s t)

/-- Stateful form of `decode_backward_request_gradient`. -/
def decode_backward_request_gradientM (s : TextSeq2Seq) (t : Tensor) : TextSeq2Seq × Tensor :=
  (s, decode_backward_request_gradient s t)

/-- Stateful form of `nill_forward_response_tensor`. -/
def nill_forward_response_tensorM (s : TextSeq2Seq) (t : Tensor) :
    TextSeq2Seq × Option Tensor :=
  (s, nill_forward_response_tensor s t)

/-- Stateful form of `nill_backward_response_gradient`. -/
def nill_backward_response_gradientM (s : TextSeq2Seq) (t : Tensor) :
    TextSeq2Seq × Option Tensor :=
  (s, nill_backward_response_gradient s t)

/-- Stateful form of `serialize_to_wire_proto`. -/
def serialize_to_wire_protoM (s : TextSeq2Seq) (code : Nat) (message : String) :
    TextSeq2Seq × WireProto :=
  (s, serialize_to_wire_proto s code message)

/-- One public operation of a variant instance, with its arguments. -/
inductive Op where
  | checkForwardRequest (t : Tensor)
  | checkForwardResponse (req resp : Tensor)
  | checkBackwardGradient (req grad : Tensor)
  | encodeForwardRequest (t : Tensor)
  | decodeForwardRequest (t : Tensor)
  | encodeForwardResponse (t : Tensor)
  | decodeForwardResponse (t : Tensor)
  | encodeBackwardGradient (t : Tensor)
  | decodeBackwardGradient (t : Tensor)
  | nilForwardResponse (t : Tensor)
  | nilBackwardGradient (t : Tensor)
  | serializeToWire (code : Nat) (message : String)

/-- The instance state after invoking one operation (the state component of
the corresponding stateful method). -/
def applyOp (s : TextSeq2Seq) : Op → TextSeq2Seq
  | .checkForwardRequest t => (check_forward_request_tensorM s t).1
  | .checkForwardResponse req resp => (check_forward_response_tensorM s req resp).1
  | .checkBackwardGradient req grad => (check_backward_request_gradientM s req grad).1
  | .encodeForwardRequest t => (encode_forward_request_tensorM s t).1
  | .decodeForwardRequest t => (decode_forward_request_tensorM s t).1
  | .encodeForwardResponse t => (encode_forward_response_tensorM s t).1
  | .decodeForwardResponse t => (decode_forward_response_tensorM s t).1
  | .encodeBackwardGradient t => (encode_backward_request_gradientM s t).1
  | .decodeBackwardGradient t => (decode_backward_request_gradientM s t).1
  | .nilForwardResponse t => (nill_forward_response_tensorM s t).1
  | .nilBackwardGradient t => (nill_backward_response_gradientM s t).1
  | .serializeToWire code message => (serialize_to_wire_protoM s code message).1

/-
  Helper lemmas.
-/

theorem ofBase10_digitsAux (fuel : Nat) :
    ∀ n : Nat, n ≤ fuel → ofBase10 (digitsAux fuel n) = n := by
  induction fuel with
  | zero =>
    intro n hn
    interval_cases n
    rfl
  | succ fuel ih =>
    intro n hn
    cases n with
    | zero => rfl
    | succ m =>
      have hdiv : (m + 1) / 10 ≤ fuel := by
        have h1 : (m + 1) / 10 < m + 1 := Nat.div_lt_self (Nat.succ_pos m) (by norm_num)
        omega
      simp only [digitsAux, ofBase10, ih _ hdiv]
      omega

theorem ofBase10_toBase10 (n : Nat) : ofBase10 (toBase10 n) = n :=
  ofBase10_digitsAux n n (Nat.le_refl n)

theorem digitsAux_lt_ten (fuel : Nat) :
    ∀ n x : Nat, x ∈ digitsAux fuel n → x < 10 := by
  induction fuel with
  | zero =>
    intro n x hx
    cases n <;> simp [digitsAux] at hx
  | succ fuel ih =>
    intro n x hx
    cases n with
    | zero => simp [digitsAux] at hx
    | succ m =>
      simp only [digitsAux, List.mem_cons] at hx
      rcases hx with hx | hx
      · subst hx
        exact Nat.mod_lt _ (by norm_num)
      · exact ih _ _ hx

theorem toBase10_ne_sep (n : Nat) : ∀ x ∈ toBase10 n, x ≠ 10 := by
  intro x hx
  exact Nat.ne_of_lt (digitsAux_lt_ten n n x hx)

theorem splitSep_append_sep (l rest : List Nat) (h : ∀ x ∈ l, x ≠ 10) :
    splitSep (l ++ 10 :: rest) = l :: splitSep rest := by
  induction l with
  | nil => simp [splitSep]
  | cons a l ih =>
    have ha : a ≠ 10 := h a (List.mem_cons_self a l)
    have h' : ∀ x ∈ l, x ≠ 10 := fun x hx => h x (List.mem_cons_of_mem a hx)
    simp only [List.cons_append, splitSep, if_neg ha, List.append_eq, ih h']

theorem splitSep_encField (n : Nat) (rest : List Nat) :
    splitSep (encField n ++ rest) = toBase10 n :: splitSep rest := by
  have h : encField n ++ rest = toBase10 n ++ 10 :: rest := by
    simp [encField]
  rw [h, splitSep_append_sep _ _ (toBase10_ne_sep n)]

theorem splitSep_encField_nil (n : Nat) :
    splitSep (encField n) = [toBase10 n, []] := by
  have h : encField n = encField n ++ [] := by simp
  rw [h, splitSep_encField]
  rfl

theorem parse_serialize (p : InstanceProto) :
    ParseFromString p.SerializeToString = some p := by
  unfold ParseFromString InstanceProto.SerializeToString
  rw [splitSep_encField, splitSep_encField, splitSep_encField, splitSep_encField,
    splitSep_encField, splitSep_encField_nil]
  simp [ofBase10_toBase10]

theorem applyOp_eq (s : TextSeq2Seq) (op : Op) : applyOp s op = s := by
  cases op <;> rfl

theorem foldl_applyOp (ops : List Op) (s : TextSeq2Seq) :
    ops.foldl applyOp s = s := by
  induction ops generalizing s with
  | nil => rfl
  | cons op ops ih => rw [List.foldl_cons, applyOp_eq, ih]

/-
  Claim theorems.
-/

/-- C1: the claim says `nill_backward_response_gradient` is total on validated
(rank-2) forward requests and returns zeros of the request's shape.  The code
instead reads `forward_request_tensor.size(2)`, which raises IndexError on
every rank-2 request: for the validated request of shape `(2, 8)` the call
fails instead of returning zeros of shape `(2, 8)`. -/
theorem nill_backward_response_gradient_fails_on_validated_request :
    check_forward_request_tensor (TextSeq2Seq.init 512 512 0 0 0 0)
        { shape := [2, 8], dtype := DType.int64, data := List.replicate 16 1 } =
      Except.ok () ∧
    nill_backward_response_gradient (TextSeq2Seq.init 512 512 0 0 0 0)
        { shape := [2, 8], dtype := DType.int64, data := List.replicate 16 1 } = none :=
  ⟨rfl, rfl⟩

/-- C2: wire round trip — for every constructed Seq2Seq instance and every
return code and message, deserializing the wire message produced by
serializing the instance reconstructs it on all six fields. -/
theorem seq2seq_wire_roundtrip (s : TextSeq2Seq) (code : Nat) (msg : String) :
    deserialize_from_wire_proto (serialize_to_wire_proto s code msg) = some s := by
  show (ParseFromString (serialize_to_instance_proto s).SerializeToString).map
      deserialize_from_instance_proto = some s
  rw [parse_serialize]
  rfl

/-- C3: `check_forward_request_tensor` raises ShapeError exactly when the
tensor's rank is not 2, and succeeds exactly when the rank is 2, regardless
of the sizes of the two dimensions (the embedding is a pure function, so the
inputs are left unchanged). -/
theorem check_forward_request_tensor_iff (s : TextSeq2Seq) (t : Tensor) :
    (check_forward_request_tensor s t = Except.error CheckError.shapeError ↔
      t.shape.length ≠ 2) ∧
    (check_forward_request_tensor s t = Except.ok () ↔ t.shape.length = 2) := by
  unfold check_forward_request_tensor
  by_cases h : t.shape.length = 2 <;> simp [h]

/-- C4: against a validated request of shape `[q0, q1]`,
`check_forward_response_tensor` raises ShapeError exactly when the response
is not rank 2, or its dimension 0 differs from `q0`, or its dimension 1
exceeds `num_to_generate`; otherwise it succeeds. -/
theorem check_forward_response_tensor_iff (s : TextSeq2Seq) (req resp : Tensor)
    (q0 q1 : Nat) (h : req.shape = [q0, q1]) :
    (check_forward_response_tensor s req resp = Except.error CheckError.shapeError ↔
      (resp.shape.length ≠ 2 ∨ resp.shape.getD 0 0 ≠ q0 ∨
        resp.shape.getD 1 0 > s.num_to_generate)) ∧
    (check_forward_response_tensor s req resp = Except.ok () ↔
      (resp.shape.length = 2 ∧ resp.shape.getD 0 0 = q0 ∧
        resp.shape.getD 1 0 ≤ s.num_to_generate)) := by
  have hq : req.shape[0]? = some q0 := by rw [h]; rfl
  by_cases h1 : resp.shape.length = 2
  · obtain ⟨r0, r1, hsh⟩ := List.length_eq_two.mp h1
    by_cases h2 : r0 = q0 <;> by_cases h3 : r1 ≤ s.num_to_generate <;>
      simp [check_forward_response_tensor, hq, hsh, h2, h3] <;> omega
  · simp [check_forward_response_tensor, hq, h1]

/-- C4 witness: with `topk = 512` and `num_to_generate = 10`, a request of
shape `(1, 6)` validates; a response of shape `(1, 11)` against it fails with
ShapeError, and a response of shape `(1, 10)` succeeds. -/
theorem check_forward_response_tensor_scenario :
    check_forward_response_tensor (TextSeq2Seq.init 512 10 0 0 0 0)
        { shape := [1, 6], dtype := DType.int64, data := List.replicate 6 1 }
        { shape := [1, 11], dtype := DType.float32, data := List.replicate 11 0 } =
      Except.error CheckError.shapeError ∧
    check_forward_response_tensor (TextSeq2Seq.init 512 10 0 0 0 0)
        { shape := [1, 6], dtype := DType.int64, data := List.replicate 6 1 }
        { shape := [1, 10], dtype := DType.float32, data := List.replicate 10 0 } =
      Except.ok () ∧
    check_forward_request_tensor (TextSeq2Seq.init 512 10 0 0 0 0)
        { shape := [1, 6], dtype := DType.int64, data := List.replicate 6 1 } =
      Except.ok () := by
  refine ⟨?_, ?_, rfl⟩
  · exact (check_forward_response_tensor_iff (TextSeq2Seq.init 512 10 0 0 0 0)
      { shape := [1, 6], dtype := DType.int64, data := List.replicate 6 1 }
      { shape := [1, 11], dtype := DType.float32, data := List.replicate 11 0 }
      1 6 rfl).1.mpr (by decide)
  · exact (check_forward_response_tensor_iff (TextSeq2Seq.init 512 10 0 0 0 0)
      { shape := [1, 6], dtype := DType.int64, data := List.replicate 6 1 }
      { shape := [1, 10], dtype := DType.float32, data := List.replicate 10 0 }
      1 6 rfl).2.mpr (by decide)

/-- C5: `check_backward_request_gradient` raises ShapeError exactly when the
gradient's shape differs from the request's shape as ordered dimension
lists, and succeeds exactly when the two shapes are equal (stated for every
request, so in particular for validated ones). -/
theorem check_backward_request_gradient_iff (s : TextSeq2Seq) (req grad : Tensor) :
    (check_backward_request_gradient s req grad = Except.error CheckError.shapeError ↔
      grad.shape ≠ req.shape) ∧
    (check_backward_request_gradient s req grad = Except.ok () ↔
      grad.shape = req.shape) := by
  unfold check_backward_request_gradient
  by_cases h : grad.shape = req.shape <;> simp [h]

/-- C6: on a validated request of shape `[q0, q1]`,
`nill_forward_response_tensor` succeeds and returns the all-zero tensor of
shape `(q0, q1, vocab_size)` with dtype float32. -/
theorem nill_forward_response_tensor_spec (s : TextSeq2Seq) (req : Tensor)
    (q0 q1 : Nat) (h : req.shape = [q0, q1]) :
    nill_forward_response_tensor s req =
      some (torch_zeros [q0, q1, vocab_size] DType.float32) ∧
    (torch_zeros [q0, q1, vocab_size] DType.float32).shape = [q0, q1, vocab_size] ∧
    (torch_zeros [q0, q1, vocab_size] DType.float32).dtype = DType.float32 ∧
    (torch_zeros [q0, q1, vocab_size] DType.float32).data.all (fun x => x == 0) = true := by
  refine ⟨?_, rfl, rfl, ?_⟩
  · unfold nill_forward_response_tensor Tensor.size
    rw [h]
    rfl
  · simp only [torch_zeros, List.all_eq_true]
    intro x hx
    simp [List.eq_of_mem_replicate hx]

/-- C6 witness: for a request of shape `(1, 4)` the nil forward response is
the zero tensor of shape `(1, 4, 50000)`. -/
theorem nill_forward_response_tensor_spec_witness :
    nill_forward_response_tensor (TextSeq2Seq.init 512 512 0 0 0 0)
        { shape := [1, 4], dtype := DType.int64, data := List.replicate 4 1 } =
      some (torch_zeros [1, 4, 50000] DType.float32) := by
  have h := nill_forward_response_tensor_spec (TextSeq2Seq.init 512 512 0 0 0 0)
      { shape := [1, 4], dtype := DType.int64, data := List.replicate 4 1 } 1 4 rfl
  simpa only [vocab_size] using h.1

/-- C7: the three encode/decode pairs of this variant are exact identities:
decoding an encoded forward request, forward response, or backward gradient
returns the original tensor. -/
theorem encode_decode_identity (s : TextSeq2Seq) (t : Tensor) :
    decode_forward_request_tensor s (encode_forward_request_tensor s t) = t ∧
    decode_forward_response_tensor s (encode_forward_response_tensor s t) = t ∧
    decode_backward_request_gradient s (encode_backward_request_gradient s t) = t :=
  ⟨rfl, rfl, rfl⟩

/-- C8: no method body of the source assigns any attribute, so in the
state-passing embedding every sequence of public operations leaves the
instance equal to its construction-time value; in particular all six
attributes keep their construction-time values. -/
theorem seq2seq_attributes_immutable (a b c d e f : Nat) (ops : List Op) :
    (ops.foldl applyOp (TextSeq2Seq.init a b c d e f) = TextSeq2Seq.init a b c d e f) ∧
    (ops.foldl applyOp (TextSeq2Seq.init a b c d e f)).topk = a ∧
    (ops.foldl applyOp (TextSeq2Seq.init a b c d e f)).num_to_generate = b ∧
    (ops.foldl applyOp (TextSeq2Seq.init a b c d e f)).forward_request_serializer_type = c ∧
    (ops.foldl applyOp (TextSeq2Seq.init a b c d e f)).forward_response_serializer_type = d ∧
    (ops.foldl applyOp (TextSeq2Seq.init a b c d e f)).backward_request_serializer_type = e ∧
    (ops.foldl applyOp (TextSeq2Seq.init a b c d e f)).backward_response_serializer_type = f := by
  rw [foldl_applyOp]
  exact ⟨rfl, rfl, rfl, rfl, rfl, rfl, rfl⟩

/-- C9: `deserialize_from_wire_proto` reads only `synapse_data`: two wire
messages with equal payload bytes deserialize identically whatever their
`synapse_type`, `return_code` and `message`; and a message whose tag differs
from this variant's tag still deserializes successfully whenever its payload
parses against the instance schema. -/
theorem deserialize_from_wire_proto_ignores_envelope (w1 w2 w : WireProto)
    (p : InstanceProto)
    (h12 : w1.synapse_data = w2.synapse_data)
    (hp : ParseFromString w.synapse_data = some p)
    (hty : w.synapse_type ≠ TEXT_SEQ_2_SEQ) :
    deserialize_from_wire_proto w1 = deserialize_from_wire_proto w2 ∧
    deserialize_from_wire_proto w = some (deserialize_from_instance_proto p) := by
  constructor
  · unfold deserialize_from_wire_proto
    rw [h12]
  · unfold deserialize_from_wire_proto
    rw [hp]
    rfl

/-- C9 witness: two wire messages carrying the same payload bytes but
different tags, return codes and messages deserialize to the same instance;
the one with the foreign tag `99` still deserializes successfully. -/
theorem deserialize_from_wire_proto_ignores_envelope_witness :
    deserialize_from_wire_proto
        { synapse_data := InstanceProto.SerializeToString ⟨512, 10, 0, 0, 0, 0⟩,
          synapse_type := TEXT_SEQ_2_SEQ, return_code := 0, message := "" } =
      deserialize_from_wire_proto
        { synapse_data := InstanceProto.SerializeToString ⟨512, 10, 0, 0, 0, 0⟩,
          synapse_type := 99, return_code := 5, message := "timeout" } ∧
    deserialize_from_wire_proto
        { synapse_data := InstanceProto.SerializeToString ⟨512, 10, 0, 0, 0, 0⟩,
          synapse_type := 99, return_code := 5, message := "timeout" } =
      some (deserialize_from_instance_proto ⟨512, 10, 0, 0, 0, 0⟩) :=
  deserialize_from_wire_proto_ignores_envelope
    { synapse_data := InstanceProto.SerializeToString ⟨512, 10, 0, 0, 0, 0⟩,
      synapse_type := TEXT_SEQ_2_SEQ, return_code := 0, message := "" }
    { synapse_data := InstanceProto.SerializeToString ⟨512, 10, 0, 0, 0, 0⟩,
      synapse_type := 99, return_code := 5, message := "timeout" }
    { synapse_data := InstanceProto.SerializeToString ⟨512, 10, 0, 0, 0, 0⟩,
      synapse_type := 99, return_code := 5, message := "timeout" }
    ⟨512, 10, 0, 0, 0, 0⟩ rfl (parse_serialize ⟨512, 10, 0, 0, 0, 0⟩) (by decide)

/-- C10: `check_forward_response_tensor` reads only dimension 0 of the
request: two requests with the same dimension 0 yield the same outcome
against any response, and a request violating the rank-2 contract is never
rejected when its dimension 0 matches a response that itself satisfies the
response rules. -/
theorem check_forward_response_tensor_reads_only_dim0 (s : TextSeq2Seq)
    (req1 req2 resp : Tensor) (d : Nat)
    (h1 : req1.shape.get? 0 = some d) (h2 : req2.shape.get? 0 = some d) :
    check_forward_response_tensor s req1 resp = check_forward_response_tensor s req2 resp ∧
    (∀ r1 : Nat, resp.shape = [d, r1] → r1 ≤ s.num_to_generate →
      check_forward_response_tensor s req1 resp = Except.ok ()) := by
  constructor
  · unfold check_forward_response_tensor
    rw [h1, h2]
  · intro r1 hresp hle
    unfold check_forward_response_tensor
    rw [h1, hresp]
    simp [Nat.not_lt.mpr hle]

/-- C10 witness: a rank-3 request of shape `(1, 6, 7)` — which itself
violates the rank-2 request contract — receives the same verdict as the
rank-2 request of shape `(1, 6)`, and is accepted against the response of
shape `(1, 10)` with `num_to_generate = 10`. -/
theorem check_forward_response_tensor_reads_only_dim0_witness :
    check_forward_response_tensor (TextSeq2Seq.init 512 10 0 0 0 0)
        { shape := [1, 6, 7], dtype := DType.int64, data := List.replicate 42 1 }
        { shape := [1, 10], dtype := DType.float32, data := List.replicate 10 0 } =
      check_forward_response_tensor (TextSeq2Seq.init 512 10 0 0 0 0)
        { shape := [1, 6], dtype := DType.int64, data := List.replicate 6 1 }
        { shape := [1, 10], dtype := DType.float32, data := List.replicate 10 0 } ∧
    check_forward_response_tensor (TextSeq2Seq.init 512 10 0 0 0 0)
        { shape := [1, 6, 7], dtype := DType.int64, data := List.replicate 42 1 }
        { shape := [1, 10], dtype := DType.float32, data := List.replicate 10 0 } =
      Except.ok () := by
  have h := check_forward_response_tensor_reads_only_dim0 (TextSeq2Seq.init 512 10 0 0 0 0)
      { shape := [1, 6, 7], dtype := DType.int64, data := List.replicate 42 1 }
      { shape := [1, 6], dtype := DType.int64, data := List.replicate 6 1 }
      { shape := [1, 10], dtype := DType.float32, data := List.replicate 10 0 }
      1 rfl rfl
  exact ⟨h.1, h.2 10 rfl (by decide)⟩

end Bittensor
